import Mathlib

/-!
Verification development for the node-webcodecs asynchronous codec-session core.

The definitions below are shallow embeddings of the repository's C++ and
TypeScript sources:

* `svc.cpp` (`parseScalabilityMode`, `isScalabilityModeSupported`),
* `encoder.cpp` (`VideoEncoderNative`: `Configure`, `Encode`, `Flush`,
  `Reset`, `Close`, and the libvpx `ts-parameters` expansion),
* `src/AudioDecoder.ts` (the `decodeQueueSize` pending counter),
* the FIFO job queue of the async session (modelled from the design spec,
  since `async_encoder.cpp` itself ships only as a header here).

The FFmpeg codec engine is an external collaborator; where its behaviour
matters it is modelled from the documented avcodec API semantics (see the
doc comments on `CodecCtx` and its operations).
-/

namespace WebCodecs

/-! ### Scalability mode parsing (svc.h / svc.cpp) -/

/-- `ScalabilityConfig` from `svc.h`.  The C++ struct stores `ratioH` as a
float that is `1.5` exactly when the mode string carries an `h` suffix and
`2.0` otherwise; it is modelled here by the boolean `ratioHalf` that
determines it. -/
structure ScalabilityConfig where
  spatialLayers : Nat
  temporalLayers : Nat
  isSimulcast : Bool
  ratioHalf : Bool
  hasKey : Bool
  hasShift : Bool
deriving Repr, DecidableEq

/-- Tail of the mode regex after the optional `_KEY` group: an optional
`_SHIFT` group followed by end of input.  Returns `some shiftMatched` on a
full match, `none` otherwise. -/
def svcTailShift : List Char → Option Bool
  | [] => some false
  | '_' :: 'S' :: 'H' :: 'I' :: 'F' :: 'T' :: [] => some true
  | _ => none

/-- Tail of the mode regex after the optional `h`: `(_KEY)?(_SHIFT)?` then
end of input. -/
def svcTailKey : List Char → Option (Bool × Bool)
  | '_' :: 'K' :: 'E' :: 'Y' :: rest => (svcTailShift rest).map (fun s => (true, s))
  | rest => (svcTailShift rest).map (fun s => (false, s))

/-- Tail of the mode regex after the two digit groups: `(h)?(_KEY)?(_SHIFT)?`
then end of input; returns `(hMatched, keyMatched, shiftMatched)`. -/
def svcTail : List Char → Option (Bool × Bool × Bool)
  | 'h' :: rest => (svcTailKey rest).map (fun p => (true, p.1, p.2))
  | rest => (svcTailKey rest).map (fun p => (false, p.1, p.2))

/-- Full match of the `svc.cpp` regex `([LS])(\d)T(\d)(h)?(_KEY)?(_SHIFT)?`
against the whole string (`std::regex_match`).  Yields the parsed config on
success, `none` when the string does not match the pattern. -/
def svcMatch (mode : String) : Option ScalabilityConfig :=
  match mode.toList with
  | c0 :: c1 :: 'T' :: c3 :: rest =>
    if (c0 = 'L' ∨ c0 = 'S') ∧ c1.isDigit ∧ c3.isDigit then
      match svcTail rest with
      | some (h, k, s) =>
        some ⟨c1.toNat - '0'.toNat, c3.toNat - '0'.toNat, c0 = 'S', h, k, s⟩
      | none => none
    else none
  | _ => none

/-- `parseScalabilityMode` from `svc.cpp`: returns the default config
`{1, 1, false, 2.0f, false, false}` for the empty string and for any string
the regex does not match. -/
def parseScalabilityMode (mode : String) : ScalabilityConfig :=
  match svcMatch mode with
  | some c => c
  | none => ⟨1, 1, false, false, false, false⟩

/-- `isScalabilityModeSupported` from `svc.cpp`: empty string is supported;
otherwise parse and reject spatial layers above 1, simulcast, and temporal
layer counts outside 1..3. -/
def isScalabilityModeSupported (mode : String) : Bool :=
  if mode = "" then true
  else
    let c := parseScalabilityMode mode
    if c.spatialLayers > 1 ∨ c.isSimulcast then false
    else if c.temporalLayers < 1 ∨ c.temporalLayers > 3 then false
    else true

example : svcMatch "L1T2" = some ⟨1, 2, false, false, false, false⟩ := by decide
example : svcMatch "S2T1" = some ⟨2, 1, true, false, false, false⟩ := by decide
example : svcMatch "L3T3h" = some ⟨3, 3, false, true, false, false⟩ := by decide
example : svcMatch "L1T2_KEY" = some ⟨1, 2, false, false, true, false⟩ := by decide
example : svcMatch "bogus" = none := by decide
example : isScalabilityModeSupported "L1T3" = true := by decide
example : isScalabilityModeSupported "L2T2" = false := by decide
example : isScalabilityModeSupported "bogus" = true := by decide

/-! ### Temporal-layer expansion (encoder.cpp, `ts-parameters` block) -/

/-- The structured content of the libvpx `ts-parameters` option string built
in `VideoEncoderNative::Configure` (lines 385-410 of `encoder.cpp`):
`ts_number_layers`, `ts_target_bitrate` (in kbps), `ts_rate_decimator`,
`ts_periodicity` and `ts_layer_id`. -/
structure TsParams where
  numberLayers : Nat
  targetBitrateKbps : List ℤ
  rateDecimator : List ℤ
  periodicity : Nat
  layerIds : List Nat
deriving Repr, DecidableEq

/-- Floor of the base-2 logarithm of the positive rational `N / D`,
computed with explicit fuel so that the recursion is structural and
kernel-reducible. -/
def floorLog2 : Nat → Nat → Nat → Int
  | 0, _, _ => 0
  | fuel + 1, N, D =>
    if N < D then floorLog2 fuel (2 * N) D - 1
    else if 2 * D ≤ N then floorLog2 fuel N (2 * D) + 1
    else 0

/-- Round the positive rational `N / D` to a 53-bit significand with
round-to-nearest, ties to even (the IEEE-754 binary64 rounding of the
normal range; sub-normals and overflow do not arise for the bitrate
magnitudes involved).  Returns the significand `m` (with
`value = m * 2 ^ (e - 52)`) and the exponent `e`. -/
def roundMantissa (N D : Nat) : Nat × Int :=
  let e := floorLog2 4000 N D
  let N2 := if e ≤ 52 then N * 2 ^ (52 - e).toNat else N
  let D2 := if e ≤ 52 then D else D * 2 ^ (e - 52).toNat
  let q := N2 / D2
  let r := N2 % D2
  let m := if 2 * r < D2 then q
    else if D2 < 2 * r then q + 1
    else if q % 2 = 0 then q else q + 1
  (m, e)

/-- The nonnegative rational `N / D` rounded to the nearest IEEE-754
binary64 value, returned as a numerator/denominator pair (every binary64
value in range is a dyadic rational). -/
def roundPair (N D : Nat) : Nat × Nat :=
  if N = 0 then (0, 1)
  else
    let p := roundMantissa N D
    if 52 ≤ p.2 then (p.1 * 2 ^ (p.2 - 52).toNat, 1) else (p.1, 2 ^ (52 - p.2).toNat)

/-- The C++ expression `static_cast<int>(b * c / 1000)` of the
`ts-parameters` block, for a nonnegative int64 `b` and a double constant
`c = cN / cD`, with each step rounded to binary64: the int64→double
conversion of `b`, the product `b * c`, and the quotient by 1000; the
final cast truncates. -/
def kbpsScaled (cN cD b : Nat) : Nat :=
  let bd := roundPair b 1
  let prod := roundPair (bd.1 * cN) (bd.2 * cD)
  let quot := roundPair prod.1 (prod.2 * 1000)
  quot.1 / quot.2

/-- `static_cast<int>(b * c / 1000)` for an int64 `b` of either sign
(binary64 rounding is sign-symmetric and the int cast truncates toward
zero). -/
def kbpsOf (cN cD : Nat) (b : Int) : Int :=
  if b < 0 then -(kbpsScaled cN cD (-b).toNat : Int)
  else (kbpsScaled cN cD b.toNat : Int)

/-- The per-layer bitrate/decimation split table of
`VideoEncoderNative::Configure` (encoder.cpp lines 385-410).  The kbps
figures are computed exactly as in the source: `bitrate_ * 0.6 / 1000`
etc. in double arithmetic (the double literal `0.6` is
`5404319552844595 / 2^53`; `0.25` and `0.5` are exactly representable)
truncated by `static_cast<int>`, and `bitrate_ / 1000` in integer
arithmetic (int64 division truncates toward zero). -/
def expandTemporalLayers (layers : Nat) (bitrate : ℤ) : Option TsParams :=
  if layers = 2 then
    some ⟨2, [kbpsOf 5404319552844595 (2 ^ 53) bitrate, Int.tdiv bitrate 1000],
          [2, 1], 2, [0, 1]⟩
  else if layers = 3 then
    some ⟨3, [kbpsOf 1 4 bitrate, kbpsOf 1 2 bitrate, Int.tdiv bitrate 1000],
          [4, 2, 1], 4, [0, 2, 1, 2]⟩
  else none

example :
    expandTemporalLayers 2 1000000 =
      some ⟨2, [600, 1000], [2, 1], 2, [0, 1]⟩ := by decide
example : kbpsOf 5404319552844595 (2 ^ 53) 5000 = 3 := by decide
example : kbpsOf 5404319552844595 (2 ^ 53) 999999 = 599 := by decide
example : kbpsOf 1 4 999999 = 249 := by decide

/-! ### Synchronous encoder session (encoder.cpp) with an engine model

The codec engine (FFmpeg libavcodec) is external to the repository; its
state is modelled from the documented avcodec API semantics:

* `avcodec_send_frame(ctx, NULL)` puts the encoder into draining mode;
* once draining, `avcodec_send_frame(ctx, frame)` fails with `AVERROR_EOF`
  until `avcodec_flush_buffers(ctx)` resets the context;
* `avcodec_receive_packet` is modelled conservatively as returning `EAGAIN`
  while frames are buffered and not draining, and as emitting every
  buffered frame's packet once draining (the drain loop of `Flush`);
* `avcodec_open2` fails for non-positive dimensions (`ff_encode_preinit`
  rejects them) and otherwise succeeds or fails per the environment flags
  below. -/

/-- One allocated `AVCodecContext`.  `id` tags the allocation so handle
leaks are observable; `buffered` holds the pts of frames sent to the
encoder but not yet emitted as packets. -/
structure CodecCtx where
  id : Nat
  width : Int
  height : Int
  draining : Bool
  buffered : List Int
  opened : Bool
deriving Repr, DecidableEq

/-- Hardware-acceleration preference (`HWAccel::Preference`,
`parsePreference` of the `hardwareAcceleration` config string). -/
inductive HWPref
  | noPreference
  | preferHardware
  | preferSoftware
deriving Repr, DecidableEq

/-- The encoder configuration request as read by
`VideoEncoderNative::Configure`. -/
structure EncCfg where
  width : Int
  height : Int
  bitrate : Int
  hwPref : HWPref
  scalabilityMode : Option String
deriving Repr, DecidableEq

/-- Outcomes of the external calls `Configure` makes, treated as an oracle:
`HWAccel::selectEncoder`, `avcodec_open2` on each plan, and
`HWAccel::createHWDeviceContext` (all outside this repository or outside
the provided sources). -/
structure HWEnv where
  codecFound : Bool
  planIsHW : Bool
  requiresHWFrames : Bool
  hwDeviceOk : Bool
  hwOpenOk : Bool
  swCodecFound : Bool
  swOpenOk : Bool
deriving Repr, DecidableEq

/-- The state of one `VideoEncoderNative` object (fields of `encoder.h` as
initialised and mutated by `encoder.cpp`), plus the ghost allocation ledger
`allocatedCtxIds`/`freedCtxIds` recording every `avcodec_alloc_context3`
and `avcodec_free_context` call. -/
structure EncoderState where
  codecCtx : Option CodecCtx
  configured : Bool
  width : Int
  height : Int
  bitrate : Int
  hwInUse : Bool
  hwDeviceCtx : Bool
  hwFramesCtx : Bool
  allocatedCtxIds : List Nat
  freedCtxIds : List Nat
  nextId : Nat
deriving Repr, DecidableEq

/-- Fresh encoder object (constructor of `VideoEncoderNative`). -/
def initEncoderState : EncoderState :=
  ⟨none, false, 0, 0, 2000000, false, false, false, [], [], 0⟩

/-- Number of codec contexts currently allocated and not freed. -/
def EncoderState.liveCtxCount (s : EncoderState) : Int :=
  (s.allocatedCtxIds.length : Int) - (s.freedCtxIds.length : Int)

/-- Events delivered to JavaScript through the stored callbacks:
`outputCallback_` (one encoded chunk, tagged with its pts),
`errorCallback_` (`EmitError`), and the flush-completion callback passed to
`Flush`. -/
inductive EmitEvent
  | chunk (pts : Int)
  | error
  | flushComplete
deriving Repr, DecidableEq

/-- Result of one JavaScript-facing call: the new state, whether a
synchronous JS exception was thrown, and the callback events emitted during
the call. -/
structure OpResult where
  state : EncoderState
  threw : Bool
  emitted : List EmitEvent
deriving Repr, DecidableEq

/-- Result of `Configure`: final state, success flag (`false` means a
synchronous JS exception), and how many `avcodec_open2` calls were made. -/
structure ConfigureResult where
  state : EncoderState
  ok : Bool
  openAttempts : Nat
deriving Repr, DecidableEq

namespace VideoEncoderNative

/-- `avcodec_open2` on a context: fails for non-positive dimensions, else
per the oracle flag for the selected codec. -/
def openOk (w h : Int) (codecOpenOk : Bool) : Bool :=
  decide (0 < w) && decide (0 < h) && codecOpenOk

/-- `VideoEncoderNative::Configure` (encoder.cpp lines 151-493).  Mirrors
the source's order of effects: the `width_`/`height_` members are assigned
first; encoder selection may fail; a codec context is allocated (without
freeing any previous one); the scalability mode is validated before the
engine is opened; the hardware device/frames contexts are created for a
hardware plan; `avcodec_open2` is attempted; on open failure with a
hardware plan and a preference other than prefer-hardware, the accelerator
contexts are released and a software plan is tried exactly once. -/
def Configure (s : EncoderState) (cfg : EncCfg) (env : HWEnv) : ConfigureResult :=
  -- lines 163-164: required parameters stored into members immediately
  let s := { s with width := cfg.width, height := cfg.height, bitrate := cfg.bitrate }
  -- lines 174-190: selectEncoder / find_encoder_by_name; throw when no codec
  if !env.codecFound then ⟨s, false, 0⟩
  else
    let hw := env.planIsHW
    -- line 196: codecCtx_ = avcodec_alloc_context3(codec_) — no free of a
    -- previously held context
    let ctxId := s.nextId
    let s := { s with
      codecCtx := some ⟨ctxId, cfg.width, cfg.height, false, [], false⟩,
      allocatedCtxIds := s.allocatedCtxIds ++ [ctxId],
      nextId := s.nextId + 1,
      hwInUse := hw }
    -- lines 362-370: scalability validation (before the engine is opened);
    -- throws without freeing the freshly allocated context
    if !(cfg.scalabilityMode.all isScalabilityModeSupported) then
      ⟨s, false, 0⟩
    else
      -- lines 311-334: hardware device / frames contexts for a hardware plan
      let s := if hw then
          { s with hwDeviceCtx := env.hwDeviceOk,
                   hwFramesCtx := env.requiresHWFrames && env.hwDeviceOk }
        else s
      -- line 438: first avcodec_open2
      if openOk cfg.width cfg.height (if hw then env.hwOpenOk else env.swOpenOk) then
        let s := { s with
          codecCtx := (s.codecCtx.map fun c => { c with opened := true }),
          configured := true }
        ⟨s, true, 1⟩
      else
        -- line 442: avcodec_free_context on the failed context
        let s := { s with codecCtx := none, freedCtxIds := s.freedCtxIds ++ [ctxId] }
        if hw && !(cfg.hwPref = HWPref.preferHardware) then
          -- lines 445-454: release accelerator resources
          let s := { s with hwDeviceCtx := false, hwFramesCtx := false }
          -- line 456: selectEncoder with PreferSoftware
          if env.swCodecFound then
            let ctxId2 := s.nextId
            let s := { s with
              codecCtx := some ⟨ctxId2, cfg.width, cfg.height, false, [], false⟩,
              allocatedCtxIds := s.allocatedCtxIds ++ [ctxId2],
              nextId := s.nextId + 1,
              hwInUse := false }
            -- line 475: second avcodec_open2
            if openOk cfg.width cfg.height env.swOpenOk then
              let s := { s with
                codecCtx := (s.codecCtx.map fun c => { c with opened := true }),
                configured := true }
              ⟨s, true, 2⟩
            else
              let s := { s with codecCtx := none,
                                freedCtxIds := s.freedCtxIds ++ [ctxId2] }
              ⟨s, false, 2⟩
          else
            ⟨s, false, 1⟩
        else
          ⟨s, false, 1⟩

/-- `VideoEncoderNative::Encode` (lines 495-608).  Throws when not
configured; otherwise converts the frame and calls `avcodec_send_frame`.
When the context is draining (a previous `Flush` sent the NULL frame),
`avcodec_send_frame` fails with `AVERROR_EOF` and the error callback is
invoked; otherwise the frame is buffered by the engine and the receive
loop finds no packet ready (`EAGAIN`). -/
def Encode (s : EncoderState) (pts : Int) : OpResult :=
  if !s.configured then ⟨s, true, []⟩
  else
    match s.codecCtx with
    | none => ⟨s, true, []⟩
    | some c =>
      if c.draining then
        -- avcodec_send_frame returns AVERROR_EOF → EmitError, no packet
        ⟨s, false, [.error]⟩
      else
        ⟨{ s with codecCtx := some { c with buffered := c.buffered ++ [pts] } },
          false, []⟩

/-- `VideoEncoderNative::Flush` (lines 643-664).  When configured with an
open context it sends the NULL frame (entering draining mode) and emits
every buffered packet; in every case the completion callback is invoked.
It never calls `avcodec_flush_buffers`, so the context is left draining. -/
def Flush (s : EncoderState) : OpResult :=
  match s.codecCtx, s.configured with
  | some c, true =>
    ⟨{ s with codecCtx := some { c with draining := true, buffered := [] } },
      false, c.buffered.map EmitEvent.chunk ++ [.flushComplete]⟩
  | _, _ => ⟨s, false, [.flushComplete]⟩

/-- `VideoEncoderNative::Reset` (lines 666-671): only
`avcodec_flush_buffers(codecCtx_)` — the engine's internal buffer is
discarded (no packets delivered) and draining mode is cleared; `configured_`
and the context itself are untouched. -/
def Reset (s : EncoderState) : EncoderState :=
  match s.codecCtx with
  | some c => { s with codecCtx := some { c with draining := false, buffered := [] } }
  | none => s

/-- `VideoEncoderNative::Close` (lines 673-695): frees the scaler and the
accelerator contexts, frees the codec context, clears `configured_`. -/
def Close (s : EncoderState) : EncoderState :=
  let freed := match s.codecCtx with
    | some c => s.freedCtxIds ++ [c.id]
    | none => s.freedCtxIds
  { s with codecCtx := none, freedCtxIds := freed,
           hwDeviceCtx := false, hwFramesCtx := false, configured := false }

end VideoEncoderNative

/-- A benign software-only environment: codec found, software plan, opens
succeed. -/
def swEnv : HWEnv := ⟨true, false, false, false, true, true, true⟩

/-- A simple valid 64x64 configuration request. -/
def cfg64 : EncCfg := ⟨64, 64, 500000, HWPref.noPreference, none⟩

example : (VideoEncoderNative.Configure initEncoderState cfg64 swEnv).ok = true := by decide
example :
    (VideoEncoderNative.Configure initEncoderState cfg64 swEnv).state.configured = true := by
  decide

/-! ### AudioDecoder pending counter (src/AudioDecoder.ts) -/

/-- `CodecState` of the wrapper classes (`types.ts`). -/
inductive CodecState
  | unconfigured
  | configured
  | closed
deriving Repr, DecidableEq

/-- The wrapper-level state of one `AudioDecoder`: its `_state`, the
`_decodeQueueSize` counter (a JS number, modelled as `Int`), and the number
of `setImmediate` callbacks scheduled by `_onData` that have not run yet
(each will decrement the counter, clamped at zero). -/
structure ADState where
  state : CodecState
  decodeQueueSize : Int
  pendingTasks : Nat
deriving Repr, DecidableEq

/-- `AudioDecoder.decode` (lines 182-199): throws unless configured;
increments `_decodeQueueSize`; calls the native decoder synchronously,
during which the native layer may invoke `_onData` `syncOutputs` times —
each such call only copies the buffer and schedules the decrement and
output delivery via `setImmediate` (lines 249-274), so the counter is not
decremented before `decode` returns.  Returns the new state and whether a
synchronous exception was thrown. -/
def adDecode (s : ADState) (syncOutputs : Nat) : ADState × Bool :=
  if s.state ≠ CodecState.configured then (s, true)
  else
    ({ s with decodeQueueSize := s.decodeQueueSize + 1,
              pendingTasks := s.pendingTasks + syncOutputs }, false)

/-- One deferred `_onData` continuation running on a later event-loop turn
(lines 254-258): `_decodeQueueSize = Math.max(0, _decodeQueueSize - 1)`,
then the dequeue event and the output callback. -/
def adRunTask (s : ADState) : ADState :=
  match s.pendingTasks with
  | 0 => s
  | n + 1 => { s with decodeQueueSize := max 0 (s.decodeQueueSize - 1),
                      pendingTasks := n }

/-- `AudioDecoder._onError` (lines 277-283): invokes the error callback
only — `_decodeQueueSize` is not touched. -/
def adOnError (s : ADState) : ADState := s

/-- `AudioDecoder.reset` (lines 217-228): throws when closed; otherwise
resets the native decoder, zeroes the counter and returns to
`unconfigured`.  Already-scheduled `setImmediate` continuations are not
cancelled. -/
def adReset (s : ADState) : ADState × Bool :=
  if s.state = CodecState.closed then (s, true)
  else ({ s with decodeQueueSize := 0, state := CodecState.unconfigured }, false)

/-- `AudioDecoder.close` (lines 230-239). -/
def adClose (s : ADState) : ADState :=
  if s.state = CodecState.closed then s
  else { s with state := CodecState.closed, decodeQueueSize := 0 }

/-! #### Per-job counter accounting (for the backpressure invariant)

A separate, job-centric view of the same TypeScript code: each submitted
decode job eventually ends either with a delivered output (`_onData` and
its deferred decrement) or with an error (`_onError`).  `outstanding` is
the ghost count of jobs whose terminal callback has not fired yet. -/

inductive ADEvent
  | decode
  | dataResult
  | errorResult
deriving Repr, DecidableEq

/-- Counter + ghost state. -/
structure ADCounter where
  counter : Int
  outstanding : Nat
deriving Repr, DecidableEq

/-- Effect of one event on `_decodeQueueSize` as implemented in
`AudioDecoder.ts`: `decode` increments (line 190); a delivered output
decrements with the `Math.max(0, ·)` clamp (line 255); `_onError` leaves
the counter unchanged (lines 277-283). -/
def adCounterStep : ADCounter → ADEvent → ADCounter
  | s, .decode => ⟨s.counter + 1, s.outstanding + 1⟩
  | s, .dataResult => ⟨max 0 (s.counter - 1), s.outstanding - 1⟩
  | s, .errorResult => ⟨s.counter, s.outstanding - 1⟩

/-- Run a sequence of events from the idle state. -/
def adCounterRun (evts : List ADEvent) : ADCounter :=
  evts.foldl adCounterStep ⟨0, 0⟩

/-! ### The async session's FIFO job queue (spec-modelled)

Modelled from the spec: the worker loop of `VideoEncoderAsync`
(`async_encoder.cpp`) is not among the available sources — only its header
(`async_encoder.h`, declaring `EncodeJob`, `jobQueue_`, `WorkerThread`,
`ProcessEncode`, `ProcessFlush`) is.  Spec sections 4.3-4.4: the caller
thread appends jobs (encode jobs and flush markers) to a single
mutex-guarded FIFO; one worker thread pops one job at a time, processes it
completely, and delivers its results through the callback channel before
popping the next; a flush marker drains the engine and then emits one
flush-complete result. -/

/-- A queued job, tagged with its submission id. -/
inductive AJob
  | encode (id : Nat)
  | flushMarker (id : Nat)
deriving Repr, DecidableEq

/-- The submission id of a job. -/
def AJob.jid : AJob → Nat
  | .encode i => i
  | .flushMarker i => i

/-- A delivered result, tagged with the id of the job it came from. -/
inductive ARes
  | output (id : Nat)
  | flushComplete (id : Nat)
deriving Repr, DecidableEq

/-- The results the worker delivers for one job, in order: an encode job's
encoded chunk, or the flush-complete notification for a marker. -/
def AJob.results : AJob → List ARes
  | .encode i => [.output i]
  | .flushMarker i => [.flushComplete i]

/-- Observable state of the queue machinery: the full submission history,
the jobs still queued, and the results delivered so far (in delivery
order). -/
structure QState where
  enqueued : List AJob
  queue : List AJob
  delivered : List ARes
deriving Repr, DecidableEq

/-- One step of the two-thread system: the caller enqueues a job, or the
worker pops the front job and delivers its results. -/
inductive QStep : QState → QState → Prop
  | enqueue (j : AJob) (s : QState) :
      QStep s ⟨s.enqueued ++ [j], s.queue ++ [j], s.delivered⟩
  | work (j : AJob) (rest : List AJob) (s : QState) (h : s.queue = j :: rest) :
      QStep s ⟨s.enqueued, rest, s.delivered ++ j.results⟩

/-- States reachable from the empty session. -/
inductive QReach : QState → Prop
  | init : QReach ⟨[], [], []⟩
  | step {s s' : QState} : QReach s → QStep s s' → QReach s'

/-- Main queue invariant: some prefix `done` of the submission history has
been fully processed, in order; the queue holds exactly the remaining
suffix, and the delivered results are exactly the results of `done`,
concatenated in submission order. -/
theorem qreach_invariant {s : QState} (h : QReach s) :
    ∃ done : List AJob, s.enqueued = done ++ s.queue ∧
      s.delivered = done.flatMap AJob.results := by
  induction h with
  | init => exact ⟨[], rfl, rfl⟩
  | step _ hstep ih =>
    obtain ⟨done, henq, hdel⟩ := ih
    cases hstep with
    | enqueue j s =>
      exact ⟨done, by simp [henq, List.append_assoc], hdel⟩
    | work j rest s hq =>
      refine ⟨done ++ [j], ?_, ?_⟩
      · simp only [henq, hq, List.append_assoc, List.singleton_append]
      · simp [hdel, List.flatMap_append]

example :
    QReach ⟨[AJob.encode 0, AJob.flushMarker 1], [],
            [ARes.output 0, ARes.flushComplete 1]⟩ := by
  have h1 := QReach.step QReach.init (QStep.enqueue (AJob.encode 0) _)
  have h2 := QReach.step h1 (QStep.enqueue (AJob.flushMarker 1) _)
  have h3 := QReach.step h2 (QStep.work (AJob.encode 0) [AJob.flushMarker 1] _ rfl)
  exact QReach.step h3 (QStep.work (AJob.flushMarker 1) [] _ rfl)

/-! ### Helper lemmas -/

theorem openOk_pos (w h : Int) (b : Bool) (hw : 0 < w) (hh : 0 < h) :
    VideoEncoderNative.openOk w h b = b := by
  simp [VideoEncoderNative.openOk, hw, hh]

theorem openOk_nonpos (w h : Int) (b : Bool) (hdim : w ≤ 0 ∨ h ≤ 0) :
    VideoEncoderNative.openOk w h b = false := by
  rcases hdim with hd | hd
  · have : ¬ (0 < w) := by omega
    simp [VideoEncoderNative.openOk, this]
  · have : ¬ (0 < h) := by omega
    simp [VideoEncoderNative.openOk, this]

theorem adRunTask_iter_nonneg (n : Nat) (t : ADState) (h : 0 ≤ t.decodeQueueSize) :
    0 ≤ (adRunTask^[n] t).decodeQueueSize := by
  induction n generalizing t with
  | zero => simpa using h
  | succ n ih =>
    rw [Function.iterate_succ_apply]
    apply ih
    unfold adRunTask
    cases t.pendingTasks with
    | zero => exact h
    | succ p => simp

/-! ### Claim theorems -/

/-- C1 (code_bug): the claim — after `flush()` the session remains
configured and a subsequent `encode()` is accepted and produces output,
with another `flush()` completing — fails on `VideoEncoderNative`.
`Flush` drains the engine by sending the NULL frame but never calls
`avcodec_flush_buffers`, so the context stays in draining mode: the
post-flush `Encode` is accepted (no state error, the session is still
configured) but its `avcodec_send_frame` fails with `AVERROR_EOF`, an
error is emitted and no chunk for the new frame is ever produced, even by
the following flush (which does complete). -/
theorem c1_flush_then_encode_no_output :
    ((VideoEncoderNative.Flush
        (VideoEncoderNative.Encode
          (VideoEncoderNative.Configure initEncoderState cfg64 swEnv).state 0).state).state.configured
        = true) ∧
    (VideoEncoderNative.Flush
        (VideoEncoderNative.Encode
          (VideoEncoderNative.Configure initEncoderState cfg64 swEnv).state 0).state).emitted
        = [EmitEvent.chunk 0, EmitEvent.flushComplete] ∧
    ((VideoEncoderNative.Encode
        (VideoEncoderNative.Flush
          (VideoEncoderNative.Encode
            (VideoEncoderNative.Configure initEncoderState cfg64 swEnv).state 0).state).state
        1000).threw = false) ∧
    ((VideoEncoderNative.Encode
        (VideoEncoderNative.Flush
          (VideoEncoderNative.Encode
            (VideoEncoderNative.Configure initEncoderState cfg64 swEnv).state 0).state).state
        1000).emitted = [EmitEvent.error]) ∧
    ((VideoEncoderNative.Flush
        (VideoEncoderNative.Encode
          (VideoEncoderNative.Flush
            (VideoEncoderNative.Encode
              (VideoEncoderNative.Configure initEncoderState cfg64 swEnv).state 0).state).state
          1000).state).emitted = [EmitEvent.flushComplete]) := by
  decide

/-- C6 (code_bug): `AudioDecoder._onError` reports the error but never
decrements `_decodeQueueSize`, so after a single `decode()` whose
processing ends in an error the counter is stuck at 1 although no job is
outstanding — the claim that the counter decreases by exactly 1 per ended
job (also on the error path) and is zero exactly when nothing is
outstanding fails.  The output path, by contrast, does return the counter
to zero. -/
theorem c6_error_leaves_counter_stuck :
    (adCounterRun [ADEvent.decode, ADEvent.errorResult]).outstanding = 0 ∧
    (adCounterRun [ADEvent.decode, ADEvent.errorResult]).counter = 1 ∧
    (adCounterRun [ADEvent.decode, ADEvent.dataResult]).outstanding = 0 ∧
    (adCounterRun [ADEvent.decode, ADEvent.dataResult]).counter = 0 := by
  decide

/-- C9 (code_bug): a second successful `Configure` on an
already-configured `VideoEncoderNative` allocates a fresh codec context
(`avcodec_alloc_context3`, line 196) without freeing the previous one:
after two configures, two engine handles have been allocated and none
freed, so two handles are open in the configured state — the claim that
every operation preserves "exactly one engine handle open" with the
previous one released fails. -/
theorem c9_reconfigure_leaks_handle :
    ((VideoEncoderNative.Configure
        (VideoEncoderNative.Configure initEncoderState cfg64 swEnv).state
        cfg64 swEnv).state.configured = true) ∧
    (VideoEncoderNative.Configure
        (VideoEncoderNative.Configure initEncoderState cfg64 swEnv).state
        cfg64 swEnv).state.allocatedCtxIds = [0, 1] ∧
    (VideoEncoderNative.Configure
        (VideoEncoderNative.Configure initEncoderState cfg64 swEnv).state
        cfg64 swEnv).state.freedCtxIds = [] ∧
    (VideoEncoderNative.Configure
        (VideoEncoderNative.Configure initEncoderState cfg64 swEnv).state
        cfg64 swEnv).state.liveCtxCount = 2 := by
  decide

/-- C4 counterexample: on a freshly configured `VideoEncoderNative`,
`Reset` leaves the session configured and the engine handle in place,
contradicting the claim that `reset()` returns the session to
`unconfigured` and releases the engine handle. -/
theorem c4_reset_keeps_handle_counterexample :
    ((VideoEncoderNative.Reset
        (VideoEncoderNative.Configure initEncoderState cfg64 swEnv).state).configured = true) ∧
    ((VideoEncoderNative.Reset
        (VideoEncoderNative.Configure initEncoderState cfg64 swEnv).state).codecCtx.isSome
        = true) := by
  decide

/-- C4 (corrected): at the wrapper layer (`AudioDecoder.reset`), `reset()`
on a non-closed session clears the pending counter to zero and returns the
session to `unconfigured` without throwing; at the native layer
(`VideoEncoderNative::Reset`), only the engine's internal buffers are
flushed — buffered frames are discarded without delivering results and
draining mode is cleared — while `configured_` and the engine handle are
retained (the handle is released only by `Close` or the destructor). -/
theorem c4_reset_amended (s : EncoderState) (a : ADState)
    (ha : a.state ≠ CodecState.closed) :
    ((VideoEncoderNative.Reset s).configured = s.configured) ∧
    ((VideoEncoderNative.Reset s).codecCtx.isSome = s.codecCtx.isSome) ∧
    ((VideoEncoderNative.Reset s).freedCtxIds = s.freedCtxIds) ∧
    (∀ c : CodecCtx, s.codecCtx = some c →
       (VideoEncoderNative.Reset s).codecCtx =
         some { c with draining := false, buffered := [] }) ∧
    (adReset a).1.decodeQueueSize = 0 ∧
    (adReset a).1.state = CodecState.unconfigured ∧
    (adReset a).2 = false := by
  refine ⟨?_, ?_, ?_, ?_, ?_, ?_, ?_⟩
  · cases h : s.codecCtx <;> simp [VideoEncoderNative.Reset, h]
  · cases h : s.codecCtx <;> simp [VideoEncoderNative.Reset, h]
  · cases h : s.codecCtx <;> simp [VideoEncoderNative.Reset, h]
  · intro c hc
    simp [VideoEncoderNative.Reset, hc]
  · simp [adReset, ha]
  · simp [adReset, ha]
  · simp [adReset, ha]

/-- C4 witness: the amended reset behaviour at a concrete configured
session and a concrete wrapper state with three pending jobs. -/
theorem c4_reset_amended_witness :
    (⟨CodecState.configured, 3, 2⟩ : ADState).state ≠ CodecState.closed ∧
    (((VideoEncoderNative.Reset initEncoderState).configured
        = initEncoderState.configured) ∧
     ((VideoEncoderNative.Reset initEncoderState).codecCtx.isSome
        = initEncoderState.codecCtx.isSome) ∧
     ((VideoEncoderNative.Reset initEncoderState).freedCtxIds
        = initEncoderState.freedCtxIds) ∧
     (∀ c : CodecCtx, initEncoderState.codecCtx = some c →
        (VideoEncoderNative.Reset initEncoderState).codecCtx =
          some { c with draining := false, buffered := [] }) ∧
     (adReset ⟨CodecState.configured, 3, 2⟩).1.decodeQueueSize = 0 ∧
     (adReset ⟨CodecState.configured, 3, 2⟩).1.state = CodecState.unconfigured ∧
     (adReset ⟨CodecState.configured, 3, 2⟩).2 = false) :=
  ⟨by decide, c4_reset_amended initEncoderState ⟨CodecState.configured, 3, 2⟩ (by decide)⟩

/-- C5 counterexample: the descriptor string `bogus` does not match the
scalability-mode pattern at all, yet `isScalabilityModeSupported` returns
true for it (the parser falls back to the default 1-layer config) and
`Configure` accepts the request — contradicting the claim that descriptor
strings that do not parse are rejected with a descriptive error. -/
theorem c5_unparseable_accepted_counterexample :
    svcMatch "bogus" = none ∧
    isScalabilityModeSupported "bogus" = true ∧
    (VideoEncoderNative.Configure initEncoderState
        ⟨64, 64, 500000, HWPref.noPreference, some "bogus"⟩ swEnv).ok = true := by
  decide

/-- C5 (corrected): descriptors that match the scalability-mode pattern but
lie outside the supported set — more than one spatial layer, simulcast, or
a temporal-layer count outside 1..3 — are rejected by
`isScalabilityModeSupported` and make `Configure` fail synchronously;
descriptor strings that do not match the pattern at all, however, parse to
the default single-layer config and are accepted (silently treated as no
SVC). -/
theorem c5_scalability_rejection_amended :
    (∀ (mode : String) (c : ScalabilityConfig), svcMatch mode = some c →
       (1 < c.spatialLayers ∨ c.isSimulcast = true ∨
        c.temporalLayers < 1 ∨ 3 < c.temporalLayers) →
       isScalabilityModeSupported mode = false ∧
       ∀ (s : EncoderState) (env : HWEnv) (w h b : Int) (p : HWPref),
         (VideoEncoderNative.Configure s ⟨w, h, b, p, some mode⟩ env).ok = false) ∧
    ∀ mode : String, svcMatch mode = none → isScalabilityModeSupported mode = true := by
  constructor
  · intro mode c hm hbad
    have hne : mode ≠ "" := by
      intro h0
      rw [h0] at hm
      have hnone : svcMatch "" = none := by decide
      rw [hnone] at hm
      exact Option.noConfusion hm
    have hp : parseScalabilityMode mode = c := by
      simp [parseScalabilityMode, hm]
    have hsup : isScalabilityModeSupported mode = false := by
      simp only [isScalabilityModeSupported, hp, if_neg hne]
      rcases hbad with hb | hb | hb | hb
      · simp [hb]
      · simp [hb]
      · by_cases h1 : c.spatialLayers > 1 ∨ c.isSimulcast = true
        · simp [h1]
        · simp only [gt_iff_lt]
          rw [if_neg (by simpa using h1), if_pos (Or.inl hb)]
      · by_cases h1 : c.spatialLayers > 1 ∨ c.isSimulcast = true
        · simp [h1]
        · simp only [gt_iff_lt]
          rw [if_neg (by simpa using h1), if_pos (Or.inr hb)]
    refine ⟨hsup, ?_⟩
    intro s env w h b p
    by_cases hc : env.codecFound
    · simp [VideoEncoderNative.Configure, hc, hsup]
    · simp [VideoEncoderNative.Configure, hc]
  · intro mode hm
    by_cases hne : mode = ""
    · simp [isScalabilityModeSupported, hne]
    · simp [isScalabilityModeSupported, hne, parseScalabilityMode, hm]

/-- C5 witness: the amended rejection at the concrete parseable-but-
unsupported descriptors `L2T2` (spatial) and the concrete unparseable
descriptor `X1T2` (accepted as default). -/
theorem c5_scalability_rejection_amended_witness :
    svcMatch "L2T2" = some ⟨2, 2, false, false, false, false⟩ ∧
    (isScalabilityModeSupported "L2T2" = false ∧
     ∀ (s : EncoderState) (env : HWEnv) (w h b : Int) (p : HWPref),
       (VideoEncoderNative.Configure s ⟨w, h, b, p, some "L2T2"⟩ env).ok = false) ∧
    svcMatch "X1T2" = none ∧
    isScalabilityModeSupported "X1T2" = true :=
  ⟨by decide,
   c5_scalability_rejection_amended.1 "L2T2" ⟨2, 2, false, false, false, false⟩
     (by decide) (by decide),
   by decide,
   c5_scalability_rejection_amended.2 "X1T2" (by decide)⟩

/-- C2 (confirmed, spec-modelled): in every reachable state of the FIFO
job-queue machine, the delivered results are exactly the results of a
prefix of the submission history, concatenated in submission order (FIFO
delivery); and once the flush-complete notification of a flush marker has
been delivered, the delivery log consists of all results of every job
enqueued before that marker, in order, followed by the flush-complete
notification — no earlier job's result comes after it. -/
theorem c2_fifo_flush_ordering {s : QState} (hreach : QReach s)
    (pre post : List AJob) (m : Nat)
    (hsplit : s.enqueued = pre ++ AJob.flushMarker m :: post)
    (huniq : (s.enqueued.map AJob.jid).Nodup)
    (hdeliv : ARes.flushComplete m ∈ s.delivered) :
    (∃ done : List AJob, s.enqueued = done ++ s.queue ∧
       s.delivered = done.flatMap AJob.results) ∧
    ∃ rest : List ARes,
      s.delivered = pre.flatMap AJob.results ++ ARes.flushComplete m :: rest := by
  obtain ⟨done, henq, hdel⟩ := qreach_invariant hreach
  refine ⟨⟨done, henq, hdel⟩, ?_⟩
  have hmem : AJob.flushMarker m ∈ done := by
    rw [hdel] at hdeliv
    obtain ⟨j, hj, hr⟩ := List.mem_flatMap.mp hdeliv
    cases j with
    | encode i => simp [AJob.results] at hr
    | flushMarker i =>
      simp [AJob.results] at hr
      subst hr
      exact hj
  have hdisj : (done.map AJob.jid).Disjoint (s.queue.map AJob.jid) := by
    rw [henq, List.map_append] at huniq
    exact (List.nodup_append.mp huniq).2.2
  have hsplit' : done ++ s.queue = pre ++ AJob.flushMarker m :: post := by
    rw [← henq, hsplit]
  rcases List.append_eq_append_iff.mp hsplit' with ⟨a, hpre, hq⟩ | ⟨c, hdone, hpost⟩
  · exfalso
    have hmq : AJob.flushMarker m ∈ s.queue := by
      rw [hq]
      exact List.mem_append_right _ (List.mem_cons_self _ _)
    exact hdisj (List.mem_map_of_mem _ hmem) (List.mem_map_of_mem _ hmq)
  · cases c with
    | nil =>
      exfalso
      have hqeq : AJob.flushMarker m :: post = s.queue := by simpa using hpost
      have hmq : AJob.flushMarker m ∈ s.queue := by
        rw [← hqeq]
        exact List.mem_cons_self _ _
      exact hdisj (List.mem_map_of_mem _ hmem) (List.mem_map_of_mem _ hmq)
    | cons j c' =>
      rw [List.cons_append] at hpost
      injection hpost with hj hpost'
      refine ⟨c'.flatMap AJob.results, ?_⟩
      rw [hdel, hdone, ← hj]
      simp [AJob.results]

/-- C2 witness: a concrete run — enqueue an encode job, enqueue a flush
marker, process both — delivers the encode job's output before the
flush-complete notification. -/
theorem c2_fifo_flush_ordering_witness :
    (∃ done : List AJob,
       ([AJob.encode 0, AJob.flushMarker 1] : List AJob) = done ++ ([] : List AJob) ∧
       ([ARes.output 0, ARes.flushComplete 1] : List ARes) = done.flatMap AJob.results) ∧
    ∃ rest : List ARes,
      ([ARes.output 0, ARes.flushComplete 1] : List ARes) =
        [AJob.encode 0].flatMap AJob.results ++ ARes.flushComplete 1 :: rest := by
  have h1 := QReach.step QReach.init (QStep.enqueue (AJob.encode 0) _)
  have h2 := QReach.step h1 (QStep.enqueue (AJob.flushMarker 1) _)
  have h3 := QReach.step h2 (QStep.work (AJob.encode 0) [AJob.flushMarker 1] _ rfl)
  have h4 := QReach.step h3 (QStep.work (AJob.flushMarker 1) [] _ rfl)
  exact c2_fifo_flush_ordering h4 [AJob.encode 0] [] 1 rfl (by decide) (by decide)

/-- C3 (confirmed): when the engine fails to open with the resolved
hardware plan (valid dimensions, codec found, no scalability descriptor so
the open path is reached): with a preference other than prefer-hardware,
`Configure` releases the accelerator device and frames contexts and
retries exactly once with a software plan — two open attempts when a
software codec is found, success exactly when its open succeeds, and a
second failure reported synchronously; with preference prefer-hardware no
software retry happens and the failure is reported immediately after the
single attempt.  In every case at most two open attempts are made. -/
theorem c3_hw_fallback_once (s : EncoderState) (cfg : EncCfg) (env : HWEnv)
    (hwpos : 0 < cfg.width) (hhpos : 0 < cfg.height)
    (hfound : env.codecFound = true)
    (hsvc : cfg.scalabilityMode = none)
    (hplan : env.planIsHW = true)
    (hfail : env.hwOpenOk = false) :
    (cfg.hwPref ≠ HWPref.preferHardware →
       (VideoEncoderNative.Configure s cfg env).state.hwDeviceCtx = false ∧
       (VideoEncoderNative.Configure s cfg env).state.hwFramesCtx = false ∧
       (VideoEncoderNative.Configure s cfg env).openAttempts =
         (if env.swCodecFound then 2 else 1) ∧
       ((VideoEncoderNative.Configure s cfg env).ok = true ↔
         env.swCodecFound = true ∧ env.swOpenOk = true) ∧
       ((VideoEncoderNative.Configure s cfg env).ok = true →
         (VideoEncoderNative.Configure s cfg env).state.hwInUse = false)) ∧
    (cfg.hwPref = HWPref.preferHardware →
       (VideoEncoderNative.Configure s cfg env).openAttempts = 1 ∧
       (VideoEncoderNative.Configure s cfg env).ok = false) ∧
    (VideoEncoderNative.Configure s cfg env).openAttempts ≤ 2 := by
  have hopen1 : VideoEncoderNative.openOk cfg.width cfg.height
      (if env.planIsHW then env.hwOpenOk else env.swOpenOk) = false := by
    rw [hplan, if_pos rfl, hfail, openOk_pos _ _ _ hwpos hhpos]
  have hopen2 : VideoEncoderNative.openOk cfg.width cfg.height env.swOpenOk
      = env.swOpenOk := openOk_pos _ _ _ hwpos hhpos
  cases hp : cfg.hwPref <;>
    cases hsw : env.swCodecFound <;>
      cases hso : env.swOpenOk <;>
        simp_all [VideoEncoderNative.Configure, hfound, hsvc, hplan, hfail,
          hopen1, hopen2]

/-- C3 witness: a concrete hardware-plan open failure with no-preference,
where the software codec is found but its open also fails — accelerator
contexts released, exactly two attempts, synchronous failure. -/
theorem c3_hw_fallback_once_witness :
    (0 : Int) < (cfg64).width ∧ (0 : Int) < (cfg64).height ∧
    ((HWEnv.mk true true true true false true false).codecFound = true) ∧
    (cfg64).scalabilityMode = none ∧
    ((HWEnv.mk true true true true false true false).planIsHW = true) ∧
    ((HWEnv.mk true true true true false true false).hwOpenOk = false) ∧
    ((cfg64.hwPref ≠ HWPref.preferHardware →
       (VideoEncoderNative.Configure initEncoderState cfg64
          (HWEnv.mk true true true true false true false)).state.hwDeviceCtx = false ∧
       (VideoEncoderNative.Configure initEncoderState cfg64
          (HWEnv.mk true true true true false true false)).state.hwFramesCtx = false ∧
       (VideoEncoderNative.Configure initEncoderState cfg64
          (HWEnv.mk true true true true false true false)).openAttempts =
         (if (HWEnv.mk true true true true false true false).swCodecFound then 2 else 1) ∧
       ((VideoEncoderNative.Configure initEncoderState cfg64
          (HWEnv.mk true true true true false true false)).ok = true ↔
         (HWEnv.mk true true true true false true false).swCodecFound = true ∧
         (HWEnv.mk true true true true false true false).swOpenOk = true) ∧
       ((VideoEncoderNative.Configure initEncoderState cfg64
          (HWEnv.mk true true true true false true false)).ok = true →
         (VideoEncoderNative.Configure initEncoderState cfg64
          (HWEnv.mk true true true true false true false)).state.hwInUse = false)) ∧
     (cfg64.hwPref = HWPref.preferHardware →
       (VideoEncoderNative.Configure initEncoderState cfg64
          (HWEnv.mk true true true true false true false)).openAttempts = 1 ∧
       (VideoEncoderNative.Configure initEncoderState cfg64
          (HWEnv.mk true true true true false true false)).ok = false) ∧
     (VideoEncoderNative.Configure initEncoderState cfg64
        (HWEnv.mk true true true true false true false)).openAttempts ≤ 2) :=
  ⟨by decide, by decide, rfl, rfl, rfl, rfl,
   c3_hw_fallback_once initEncoderState cfg64 (HWEnv.mk true true true true false true false)
     (by decide) (by decide) rfl rfl rfl rfl⟩

/-- C7 counterexample: the claim's exact percentage split fails under the
source's whole-kbps truncation — at target bitrate 150000 the 3-layer
expansion gives layer-0 37 kbps, i.e. 37000 bps, not 25% of B = 37500;
and at target bitrate 1000 the 2-layer expansion gives layer-0 0 kbps,
not 60% of B = 600 bps. -/
theorem c7_split_counterexample :
    expandTemporalLayers 3 150000 =
      some ⟨3, [37, 75, 150], [4, 2, 1], 4, [0, 2, 1, 2]⟩ ∧
    (37 * 1000 : ℤ) ≠ 150000 / 4 ∧
    expandTemporalLayers 2 1000 =
      some ⟨2, [0, 1], [2, 1], 2, [0, 1]⟩ ∧
    (0 * 1000 : ℤ) ≠ 6 * 1000 / 10 := by
  decide

/-- C7 (corrected): the split table expands a 2-layer descriptor with
decimators 2:1 (periodicity 2, layer ids 0,1) and per-layer kbps
`trunc(B * 0.6 / 1000)` and `trunc(B / 1000)`, and a 3-layer descriptor
with decimators 4:2:1 (periodicity 4, layer ids 0,2,1,2) and kbps
`trunc(B * 0.25 / 1000)`, `trunc(B * 0.5 / 1000)`, `trunc(B / 1000)` —
the 60%/100% and 25%/50%/100% percentages hold only up to truncation to
whole kbps.  At the claim's example B = 1000000 the split is exact:
layer-0 600000 bps (= 60%) and layer-1 1000000 bps for 2 layers, and
250000/500000/1000000 bps (= 25%/50%/100%) for 3 layers; at B = 150000
the 3-layer layer-0 is 37 kbps (37000 bps, not 37500), and at B = 1000
the 2-layer layer-0 is 0 kbps. -/
theorem c7_temporal_layer_split_amended :
    (∀ B : ℤ, ∃ p : TsParams, expandTemporalLayers 2 B = some p ∧
       p.numberLayers = 2 ∧ p.rateDecimator = [2, 1] ∧ p.periodicity = 2 ∧
       p.layerIds = [0, 1] ∧
       p.targetBitrateKbps = [kbpsOf 5404319552844595 (2 ^ 53) B, Int.tdiv B 1000]) ∧
    (∀ B : ℤ, ∃ p : TsParams, expandTemporalLayers 3 B = some p ∧
       p.numberLayers = 3 ∧ p.rateDecimator = [4, 2, 1] ∧ p.periodicity = 4 ∧
       p.layerIds = [0, 2, 1, 2] ∧
       p.targetBitrateKbps = [kbpsOf 1 4 B, kbpsOf 1 2 B, Int.tdiv B 1000]) ∧
    expandTemporalLayers 2 1000000 =
      some ⟨2, [600, 1000], [2, 1], 2, [0, 1]⟩ ∧
    (600 * 1000 : ℤ) = 6 * 1000000 / 10 ∧
    (1000 * 1000 : ℤ) = 1000000 ∧
    expandTemporalLayers 3 1000000 =
      some ⟨3, [250, 500, 1000], [4, 2, 1], 4, [0, 2, 1, 2]⟩ ∧
    (250 * 1000 : ℤ) = 1000000 / 4 ∧
    (500 * 1000 : ℤ) = 1000000 / 2 ∧
    expandTemporalLayers 3 150000 =
      some ⟨3, [37, 75, 150], [4, 2, 1], 4, [0, 2, 1, 2]⟩ ∧
    expandTemporalLayers 2 1000 =
      some ⟨2, [0, 1], [2, 1], 2, [0, 1]⟩ := by
  refine ⟨fun B => ⟨_, rfl, rfl, rfl, rfl, rfl, rfl⟩,
          fun B => ⟨_, rfl, rfl, rfl, rfl, rfl, rfl⟩, ?_⟩
  decide

/-- C8 counterexample: a configure request with width 0 is indeed rejected
synchronously, but only after an engine resource has been touched — a
codec context is allocated (allocation ledger `[0]`) before the open
failure — and the session object retains partial state (`width_ = 0`),
contradicting "before any engine resource is touched, and no partial
session state is created". -/
theorem c8_zero_dims_engine_touched_counterexample :
    ((VideoEncoderNative.Configure initEncoderState
        ⟨0, 64, 500000, HWPref.noPreference, none⟩ swEnv).ok = false) ∧
    (VideoEncoderNative.Configure initEncoderState
        ⟨0, 64, 500000, HWPref.noPreference, none⟩ swEnv).state.allocatedCtxIds = [0] ∧
    (VideoEncoderNative.Configure initEncoderState
        ⟨0, 64, 500000, HWPref.noPreference, none⟩ swEnv).state.width = 0 := by
  decide

/-- C8 (corrected): `Configure` performs no early dimension validation;
with zero or negative width or height (codec found, no scalability
descriptor) the request still fails synchronously and the session is left
unconfigured with the failed context freed — but the rejection only
happens at engine-open time, after a codec context has been allocated and
the `width_`/`height_` members updated. -/
theorem c8_zero_dims_amended (cfg : EncCfg) (env : HWEnv)
    (hdim : cfg.width ≤ 0 ∨ cfg.height ≤ 0)
    (hfound : env.codecFound = true) (hsvc : cfg.scalabilityMode = none) :
    (VideoEncoderNative.Configure initEncoderState cfg env).ok = false ∧
    (VideoEncoderNative.Configure initEncoderState cfg env).state.configured = false ∧
    (VideoEncoderNative.Configure initEncoderState cfg env).state.codecCtx = none ∧
    (VideoEncoderNative.Configure initEncoderState cfg env).state.width = cfg.width ∧
    (VideoEncoderNative.Configure initEncoderState cfg env).state.allocatedCtxIds ≠ [] := by
  have hopen : ∀ b : Bool, VideoEncoderNative.openOk cfg.width cfg.height b = false :=
    fun b => openOk_nonpos _ _ _ hdim
  cases hb : env.planIsHW <;>
    cases hp : cfg.hwPref <;>
      cases hsw : env.swCodecFound <;>
        cases hso : env.swOpenOk <;>
          cases hho : env.hwOpenOk <;>
            simp_all [VideoEncoderNative.Configure, initEncoderState, hfound, hsvc, hopen]

/-- C8 witness: the amended behaviour at the concrete request with
height -1. -/
theorem c8_zero_dims_amended_witness :
    ((⟨64, -1, 500000, HWPref.noPreference, none⟩ : EncCfg).width ≤ 0 ∨
     (⟨64, -1, 500000, HWPref.noPreference, none⟩ : EncCfg).height ≤ 0) ∧
    (swEnv.codecFound = true) ∧
    ((VideoEncoderNative.Configure initEncoderState
        ⟨64, -1, 500000, HWPref.noPreference, none⟩ swEnv).ok = false ∧
     (VideoEncoderNative.Configure initEncoderState
        ⟨64, -1, 500000, HWPref.noPreference, none⟩ swEnv).state.configured = false ∧
     (VideoEncoderNative.Configure initEncoderState
        ⟨64, -1, 500000, HWPref.noPreference, none⟩ swEnv).state.codecCtx = none ∧
     (VideoEncoderNative.Configure initEncoderState
        ⟨64, -1, 500000, HWPref.noPreference, none⟩ swEnv).state.width =
       (⟨64, -1, 500000, HWPref.noPreference, none⟩ : EncCfg).width ∧
     (VideoEncoderNative.Configure initEncoderState
        ⟨64, -1, 500000, HWPref.noPreference, none⟩ swEnv).state.allocatedCtxIds ≠ []) :=
  ⟨Or.inr (by decide), rfl,
   c8_zero_dims_amended ⟨64, -1, 500000, HWPref.noPreference, none⟩ swEnv
     (Or.inr (by decide)) rfl rfl⟩

/-- C10 (confirmed): when the native decoder produces outputs synchronously
during `decode()`, `_onData` only schedules the decrement via
`setImmediate`, so at the moment `decode()` returns the counter equals the
old value plus one and is strictly positive, with the deferred decrements
recorded as pending tasks; running the deferred decrements can never drive
the counter negative — at zero the `Math.max(0, ·)` clamp keeps it at
zero. -/
theorem c10_deferred_dequeue (s : ADState) (k : Nat)
    (hconf : s.state = CodecState.configured) (hnn : 0 ≤ s.decodeQueueSize) :
    (adDecode s k).2 = false ∧
    (adDecode s k).1.decodeQueueSize = s.decodeQueueSize + 1 ∧
    0 < (adDecode s k).1.decodeQueueSize ∧
    (adDecode s k).1.pendingTasks = s.pendingTasks + k ∧
    (∀ n : Nat, 0 ≤ (adRunTask^[n] (adDecode s k).1).decodeQueueSize) ∧
    ∀ t : ADState, t.decodeQueueSize = 0 → (adRunTask t).decodeQueueSize = 0 := by
  refine ⟨?_, ?_, ?_, ?_, ?_, ?_⟩
  · simp [adDecode, hconf]
  · simp [adDecode, hconf]
  · simp only [adDecode, hconf]
    simp
    omega
  · simp [adDecode, hconf]
  · intro n
    apply adRunTask_iter_nonneg
    simp only [adDecode, hconf]
    simp
    omega
  · intro t ht
    unfold adRunTask
    cases t.pendingTasks with
    | zero => exact ht
    | succ p => simp [ht]

/-- C10 witness: a decode on an idle configured session during which one
output arrives synchronously — the counter is 1 (not 0) when `decode()`
returns, one decrement is pending, and the clamp holds at zero. -/
theorem c10_deferred_dequeue_witness :
    (⟨CodecState.configured, 0, 0⟩ : ADState).state = CodecState.configured ∧
    (0 : Int) ≤ (⟨CodecState.configured, 0, 0⟩ : ADState).decodeQueueSize ∧
    ((adDecode ⟨CodecState.configured, 0, 0⟩ 1).2 = false ∧
     (adDecode ⟨CodecState.configured, 0, 0⟩ 1).1.decodeQueueSize =
       (⟨CodecState.configured, 0, 0⟩ : ADState).decodeQueueSize + 1 ∧
     0 < (adDecode ⟨CodecState.configured, 0, 0⟩ 1).1.decodeQueueSize ∧
     (adDecode ⟨CodecState.configured, 0, 0⟩ 1).1.pendingTasks =
       (⟨CodecState.configured, 0, 0⟩ : ADState).pendingTasks + 1 ∧
     (∀ n : Nat,
        0 ≤ (adRunTask^[n] (adDecode ⟨CodecState.configured, 0, 0⟩ 1).1).decodeQueueSize) ∧
     ∀ t : ADState, t.decodeQueueSize = 0 → (adRunTask t).decodeQueueSize = 0) :=
  ⟨rfl, by decide,
   c10_deferred_dequeue ⟨CodecState.configured, 0, 0⟩ 1 rfl (by decide)⟩

end WebCodecs
